import Mathlib

/-!
Verification development for the StudyBuddy backend.

Shallow embedding of the TypeScript sources:
  backend/src/services/canvas.ts   (CanvasService)
  backend/src/services/sms.ts      (SmsService)
  backend/src/routes/index.ts      (SMS webhook handler, subscription service)

External collaborators (the Canvas HTTP API, the OpenAI text generation
call, the Textbelt SMS transport, locale date formatting and JS number
rendering) are modelled as explicit oracle parameters; everything the
repository itself computes is embedded as executable Lean definitions.
-/

/-! ## Canvas data model (backend/src/services/canvas.ts)

`Assignment.due_at` is an ISO date string in the source, immediately parsed
with `new Date(...)` wherever it is used; we embed the parsed value directly
as an optional integer timestamp in milliseconds.  `points_possible` is an
optional JS number, embedded as an optional rational. -/

structure Assignment where
  id : Nat
  name : String
  description : Option String
  due_at : Option Int
  points_possible : Option Rat
  course_id : Nat
  html_url : String
deriving DecidableEq

structure Course where
  id : Nat
  name : String
  course_code : String
deriving DecidableEq

/-- An assignment enriched with its course name and code, as built by the
spread `\x7b ...assignment, courseName, courseCode \x7d` in
`getUpcomingAssignments`. -/
structure UpcomingAssignment extends Assignment where
  courseName : String
  courseCode : String
deriving DecidableEq

def decorate (course : Course) (a : Assignment) : UpcomingAssignment :=
  ⟨a, course.name, course.course_code⟩

/-- Per-course branch of `getUpcomingAssignments`: a successful fetch
contributes the decorated assignment list, a failed fetch is caught and
contributes `[]` (canvas.ts lines 113-132).  The network call itself is the
oracle `fetch`. -/
def fetchDecorated (fetch : Course → Except String (List Assignment))
    (course : Course) : List UpcomingAssignment :=
  match fetch course with
  | Except.ok assignments => assignments.map (decorate course)
  | Except.error _ => []

/-- The merged list `allAssignments` (canvas.ts line 134):
`(await Promise.all(assignmentPromises)).flat()`. -/
def allAssignments (fetch : Course → Except String (List Assignment))
    (courses : List Course) : List UpcomingAssignment :=
  (courses.map (fetchDecorated fetch)).flatten

/-- The filter predicate of canvas.ts lines 142-146: no due date is excluded,
otherwise keep when `now <= due && due <= now + daysAhead*24*60*60*1000`. -/
def inWindow (now daysAhead : Int) (a : UpcomingAssignment) : Bool :=
  match a.due_at with
  | none => false
  | some due => decide (now ≤ due) && decide (due ≤ now + daysAhead * 24 * 60 * 60 * 1000)

/-- The sort comparator of canvas.ts lines 149-152: 0 when either side has no
due date, otherwise the difference of the timestamps. -/
def dueCmp (a b : UpcomingAssignment) : Int :=
  match a.due_at, b.due_at with
  | none, _ => 0
  | _, none => 0
  | some x, some y => x - y

/-- Insertion step of the sort.  `Array.prototype.sort` is a comparison sort
(stable in modern engines); on a list where the comparator is consistent its
observable output is the sorted rearrangement, which we embed as insertion
sort by the comparator. -/
def insertByDue (a : UpcomingAssignment) :
    List UpcomingAssignment → List UpcomingAssignment
  | [] => [a]
  | b :: l => if dueCmp a b ≤ 0 then a :: b :: l else b :: insertByDue a l

def sortByDue (l : List UpcomingAssignment) : List UpcomingAssignment :=
  l.foldr insertByDue []

/-- `CanvasService.getUpcomingAssignments` (canvas.ts lines 103-164), with the
course list and the per-course fetches supplied by oracles and the clock
passed explicitly.  Returns the pair (filtered+sorted assignments, courses). -/
def getUpcomingAssignments (fetch : Course → Except String (List Assignment))
    (courses : List Course) (now daysAhead : Int) :
    List UpcomingAssignment × List Course :=
  (sortByDue ((allAssignments fetch courses).filter (inWindow now daysAhead)), courses)

/-- Due timestamp with default 0, used only to state sortedness; every element
of the filtered list in fact has a `some` due date. -/
def dueOf (a : UpcomingAssignment) : Int :=
  match a.due_at with
  | some d => d
  | none => 0

/-! ## formatAssignmentsForAI (canvas.ts lines 169-196)

Locale date formatting (`toLocaleDateString`) and JS number rendering in the
template literal are external runtime services, passed as the oracles
`fmtDate` and `numStr`. -/

def renderLine (numStr : Rat → String) (fmtDate : Int → String)
    (a : UpcomingAssignment) : String :=
  let dueDate := match a.due_at with
    | some d => fmtDate d
    | none => "No due date"
  let courseName := if a.courseName == "" then "Unknown Course" else a.courseName
  let points := match a.points_possible with
    | none => ""
    | some p => if p == 0 then "" else " (" ++ numStr p ++ " points)"
  "• " ++ a.name ++ " for " ++ courseName ++ points ++ " - Due: " ++ dueDate

def formatAssignmentsForAI (numStr : Rat → String) (fmtDate : Int → String)
    (assignments : List UpcomingAssignment) : String :=
  if assignments.isEmpty then
    "You have no upcoming assignments in the next 7 days. Great job staying on top of your work!"
  else
    "Here are your upcoming assignments:\n\n"
      ++ String.intercalate "\n" (assignments.map (renderLine numStr fmtDate))

/-- Replace the points field, keeping everything else (used to compare the
rendering of points 0 against absent points). -/
def withPoints (a : UpcomingAssignment) (p : Option Rat) : UpcomingAssignment :=
  ⟨⟨a.id, a.name, a.description, a.due_at, p, a.course_id, a.html_url⟩,
   a.courseName, a.courseCode⟩

/-! ## Subscription registry (backend/src/services/subscription.ts)

The service reads the whole collection from disk, mutates it and writes it
back; we embed the collection as the explicit state `List Subscription` and
the file I/O as pure state passing.  The generated `id` (`Date.now()` plus a
random suffix) and `createdAt` timestamp are nondeterministic inputs, passed
as parameters. -/

structure Subscription where
  id : String
  phoneNumber : String
  apiKey : String
  canvasUrl : Option String
  daysAhead : Option Int
  createdAt : String
  isActive : Bool
deriving DecidableEq

/-- The record built by `createSubscription` for fresh phone numbers:
all supplied data plus `isActive: true`. -/
def newSubscription (id phoneNumber apiKey : String) (canvasUrl : Option String)
    (daysAhead : Option Int) (createdAt : String) : Subscription :=
  ⟨id, phoneNumber, apiKey, canvasUrl, daysAhead, createdAt, true⟩

/-- `createSubscription` (subscription service, duplicate check by
`find` on exact phone-number string equality, then push and write).  The
error value is the message of the thrown `Error`; the returned list is the
collection as persisted (unchanged when the duplicate check throws, since the
throw happens before the write). -/
def createSubscription (store : List Subscription)
    (phoneNumber apiKey : String) (canvasUrl : Option String)
    (daysAhead : Option Int) (id createdAt : String) :
    Except String Subscription × List Subscription :=
  match store.find? (fun sub => sub.phoneNumber == phoneNumber) with
  | some _ => (Except.error "Phone number already subscribed", store)
  | none =>
      let subscription := newSubscription id phoneNumber apiKey canvasUrl daysAhead createdAt
      (Except.ok subscription, store ++ [subscription])

/-- `getSubscription`: `subscriptions.find(...) || null`. -/
def getSubscription (store : List Subscription) (phoneNumber : String) :
    Option Subscription :=
  store.find? (fun sub => sub.phoneNumber == phoneNumber)

/-- A record with its `isActive` flag cleared, everything else unchanged. -/
def deactivated (s : Subscription) : Subscription :=
  ⟨s.id, s.phoneNumber, s.apiKey, s.canvasUrl, s.daysAhead, s.createdAt, false⟩

/-- Clear `isActive` on the first record matching the phone number
(`findIndex` plus in-place mutation in the source); `none` when no record
matches. -/
def deactivateFirst : List Subscription → String → Option (List Subscription)
  | [], _ => none
  | sub :: rest, phoneNumber =>
      if sub.phoneNumber == phoneNumber then some (deactivated sub :: rest)
      else Option.map (fun l => sub :: l) (deactivateFirst rest phoneNumber)

/-- `unsubscribe`: `findIndex`; -1 means return false without writing,
otherwise flip `isActive` of that record to false, persist, return true. -/
def unsubscribe (store : List Subscription) (phoneNumber : String) :
    Bool × List Subscription :=
  match deactivateFirst store phoneNumber with
  | none => (false, store)
  | some updated => (true, updated)

/-! ## SMS webhook reply router (backend/src/routes/index.ts lines 152-199)

The AI generation call and the SMS transport are oracles: `gen` is the
outcome of `AIService.generateResponse` on the question, `sendOk` tells
whether dispatching the generated answer succeeds (a failed dispatch throws
into the same catch block as a failed generation).  The handler returns the
(untouched) subscription store, the list of outbound SMS dispatch attempts
as (phone, message) pairs, and the JSON response of the happy path.  The
subscription store is threaded through to record that the handler never
touches it. -/

def seqStarts : List Char → List Char → Bool
  | [], _ => true
  | _ :: _, [] => false
  | a :: as, b :: bs => a == b && seqStarts as bs

def seqContains (needle : List Char) : List Char → Bool
  | [] => seqStarts needle []
  | c :: t => seqStarts needle (c :: t) || seqContains needle t

/-- `webhookData.text.toLowerCase().includes("stop")`.  JS `toLowerCase` is
full Unicode; `Char.toLower` covers the portion relevant to locating the
ASCII word "stop". -/
def includesStop (text : String) : Bool :=
  seqContains "stop".data (text.data.map Char.toLower)

structure JsonResponse where
  success : Bool
  message : String
deriving DecidableEq

def optOutResponse : JsonResponse := ⟨true, "User opted out"⟩

def replyProcessedResponse : JsonResponse := ⟨true, "Reply processed and sent"⟩

def studyBuddyTag : String := "📚 StudyBuddy: "

def fallbackMessage : String :=
  "Sorry, I couldn\x27t process your question right now. Please try again later! 📚"

/-- The webhook handler body after signature checking (routes/index.ts lines
163-199).  The stop branch responds and returns before any dispatch; the
question branch dispatches the tagged AI answer, falling back to the fixed
apology when generation fails or the first dispatch throws.  (If the fallback
dispatch itself throws, the attempt has still been made and the thrown error
surfaces through the express error middleware, outside this model.) -/
def handleInbound (store : List Subscription) (fromNumber text : String)
    (gen : Except String String) (sendOk : Bool) :
    List Subscription × List (String × String) × JsonResponse :=
  if includesStop text then
    (store, [], optOutResponse)
  else
    match gen with
    | Except.ok answer =>
        if sendOk then
          (store, [(fromNumber, studyBuddyTag ++ answer)], replyProcessedResponse)
        else
          (store, [(fromNumber, studyBuddyTag ++ answer), (fromNumber, fallbackMessage)],
           replyProcessedResponse)
    | Except.error _ =>
        (store, [(fromNumber, fallbackMessage)], replyProcessedResponse)

/-! ## SHA-256 and HMAC (backend/src/services/sms.ts verifyWebhook)

`verifyWebhook` delegates to node:crypto, i.e. to the standard HMAC-SHA256
construction (FIPS 180-4 / RFC 2104), which we embed executably.  Bytes are
naturals below 256, 32-bit words are naturals reduced mod 2^32. -/

def w32 (x : Nat) : Nat := x % 4294967296

def rotr (n x : Nat) : Nat := w32 ((x >>> n) ||| (x <<< (32 - n)))

def sha256K : List Nat :=
  [1116352408, 1899447441, 3049323471, 3921009573, 961987163, 1508970993,
   2453635748, 2870763221, 3624381080, 310598401, 607225278, 1426881987,
   1925078388, 2162078206, 2614888103, 3248222580, 3835390401, 4022224774,
   264347078, 604807628, 770255983, 1249150122, 1555081692, 1996064986,
   2554220882, 2821834349, 2952996808, 3210313671, 3336571891, 3584528711,
   113926993, 338241895, 666307205, 773529912, 1294757372, 1396182291,
   1695183700, 1986661051, 2177026350, 2456956037, 2730485921, 2820302411,
   3259730800, 3345764771, 3516065817, 3600352804, 4094571909, 275423344,
   430227734, 506948616, 659060556, 883997877, 958139571, 1322822218,
   1537002063, 1747873779, 1955562222, 2024104815, 2227730452, 2361852424,
   2428436474, 2756734187, 3204031479, 3329325298]

structure Hash8 where
  a : Nat
  b : Nat
  c : Nat
  d : Nat
  e : Nat
  f : Nat
  g : Nat
  h : Nat

def sha256Init : Hash8 :=
  ⟨1779033703, 3144134277, 1013904242, 2773480762,
   1359893119, 2600822924, 528734635, 1541459225⟩

/-- Big-endian 8-byte encoding of the bit length, for the padding block. -/
def bytesBE8 (n : Nat) : List Nat :=
  [n >>> 56 % 256, n >>> 48 % 256, n >>> 40 % 256, n >>> 32 % 256,
   n >>> 24 % 256, n >>> 16 % 256, n >>> 8 % 256, n % 256]

def padMessage (msg : List Nat) : List Nat :=
  msg ++ [128] ++ List.replicate ((119 - msg.length % 64) % 64) 0
      ++ bytesBE8 (8 * msg.length)

/-- Group bytes into big-endian 32-bit words. -/
def chunkWords : List Nat → List Nat
  | b0 :: b1 :: b2 :: b3 :: rest =>
      (b0 * 16777216 + b1 * 65536 + b2 * 256 + b3) :: chunkWords rest
  | _ => []

/-- Group words into 16-word blocks. -/
def chunkBlocks : List Nat → List (List Nat)
  | w0 :: w1 :: w2 :: w3 :: w4 :: w5 :: w6 :: w7 ::
    w8 :: w9 :: w10 :: w11 :: w12 :: w13 :: w14 :: w15 :: rest =>
      [w0, w1, w2, w3, w4, w5, w6, w7, w8, w9, w10, w11, w12, w13, w14, w15]
        :: chunkBlocks rest
  | _ => []

def sigma0 (x : Nat) : Nat := rotr 7 x ^^^ rotr 18 x ^^^ (x >>> 3)

def sigma1 (x : Nat) : Nat := rotr 17 x ^^^ rotr 19 x ^^^ (x >>> 10)

/-- Extend the 16 block words to the 64-entry message schedule. -/
def extendSchedule : Nat → List Nat → List Nat
  | 0, ws => ws
  | n + 1, ws =>
      let i := ws.length
      let w := w32 (ws.getD (i - 16) 0 + sigma0 (ws.getD (i - 15) 0)
                    + ws.getD (i - 7) 0 + sigma1 (ws.getD (i - 2) 0))
      extendSchedule n (ws ++ [w])

def sha256Round (st : Hash8) (k w : Nat) : Hash8 :=
  let bigS1 := rotr 6 st.e ^^^ rotr 11 st.e ^^^ rotr 25 st.e
  let ch := (st.e &&& st.f) ^^^ ((st.e ^^^ 0xffffffff) &&& st.g)
  let temp1 := w32 (st.h + bigS1 + ch + k + w)
  let bigS0 := rotr 2 st.a ^^^ rotr 13 st.a ^^^ rotr 22 st.a
  let maj := (st.a &&& st.b) ^^^ (st.a &&& st.c) ^^^ (st.b &&& st.c)
  let temp2 := w32 (bigS0 + maj)
  ⟨w32 (temp1 + temp2), st.a, st.b, st.c, w32 (st.d + temp1), st.e, st.f, st.g⟩

def addHash (x y : Hash8) : Hash8 :=
  ⟨w32 (x.a + y.a), w32 (x.b + y.b), w32 (x.c + y.c), w32 (x.d + y.d),
   w32 (x.e + y.e), w32 (x.f + y.f), w32 (x.g + y.g), w32 (x.h + y.h)⟩

def processBlock (st : Hash8) (block : List Nat) : Hash8 :=
  addHash st ((sha256K.zip (extendSchedule 48 block)).foldl
    (fun s p => sha256Round s p.1 p.2) st)

def wordBytes (w : Nat) : List Nat :=
  [w >>> 24 % 256, w >>> 16 % 256, w >>> 8 % 256, w % 256]

/-- SHA-256 of a byte list, as a 32-byte list. -/
def sha256 (msg : List Nat) : List Nat :=
  let final := (chunkBlocks (chunkWords (padMessage msg))).foldl processBlock sha256Init
  wordBytes final.a ++ wordBytes final.b ++ wordBytes final.c ++ wordBytes final.d
    ++ wordBytes final.e ++ wordBytes final.f ++ wordBytes final.g ++ wordBytes final.h

/-- HMAC-SHA256 (RFC 2104): block size 64, key hashed when longer. -/
def hmacSha256 (key msg : List Nat) : List Nat :=
  let k0 := if key.length > 64 then sha256 key else key
  let kp := k0 ++ List.replicate (64 - k0.length) 0
  sha256 ((kp.map (fun b => b ^^^ 0x5c)) ++ sha256 ((kp.map (fun b => b ^^^ 0x36)) ++ msg))

def hexDigit (n : Nat) : Char :=
  if n < 10 then Char.ofNat (48 + n) else Char.ofNat (87 + n)

/-- Lowercase hex rendering of a byte list, as produced by digest("hex"). -/
def bytesToHex (l : List Nat) : String :=
  String.mk (l.flatMap (fun b => [hexDigit (b / 16), hexDigit (b % 16)]))

def hmacHex (key msg : List Nat) : String := bytesToHex (hmacSha256 key msg)

/-- UTF-8 bytes of an ASCII string (all strings compared here are ASCII). -/
def strBytes (s : String) : List Nat := s.data.map Char.toNat

/-- `SmsService.verifyWebhook` (sms.ts lines 79-99): recompute the hex
HMAC-SHA256 of timestamp ++ payload under the key and compare with the
supplied signature.  `crypto.timingSafeEqual` on the two buffers is equality
of the strings: a length mismatch throws and the catch returns false, equal
lengths give a constant-time byte comparison. -/
def verifyWebhook (apiKey timestamp : List Nat) (signature : String)
    (payload : List Nat) : Bool :=
  signature == hmacHex apiKey (timestamp ++ payload)

/-- Decimal ASCII bytes of a natural, the canonical timestamp header as both
hashed (as a string) and parsed by `parseInt`. -/
def decimalBytes (n : Nat) : List Nat := (Nat.repr n).data.map Char.toNat

/-- The verification gate of the webhook route (routes/index.ts lines
111-150): with both headers present, require a valid signature and
`now - parseInt(timestamp) <= 900`; with either header absent (or falsy) the
whole check is skipped. -/
def webhookGate (apiKey : List Nat) (sig : Option String) (ts : Option Nat)
    (payload : List Nat) (now : Int) : Bool :=
  match sig, ts with
  | some s, some t =>
      verifyWebhook apiKey (decimalBytes t) s payload && decide (now - (t : Int) ≤ 900)
  | _, _ => true

/-- Whether the per-course assignment fetch for this course succeeded. -/
def fetchOk (fetch : Course → Except String (List Assignment)) (c : Course) : Bool :=
  match fetch c with
  | Except.ok _ => true
  | Except.error _ => false

/-! ## Concrete sample inputs, used by the witness theorems -/

def tbKey : List Nat := strBytes "textbelt"

def samplePayload : List Nat := strBytes "textId=123&text=hello"

/-- samplePayload with its last byte changed. -/
def samplePayloadTampered : List Nat := strBytes "textId=123&text=hellp"

def subA : Subscription :=
  ⟨"id1", "+14085551234", "canvaskey1", none, none, "2025-01-01T00:00:00Z", true⟩

def asgnA : Assignment :=
  ⟨11, "Homework 3", none, some 200000, some 10, 1, "https://sjsu.instructure.com/a/11"⟩

def asgnB : Assignment :=
  ⟨12, "Essay", none, some 100000, none, 1, "https://sjsu.instructure.com/a/12"⟩

def courseA : Course := ⟨1, "Math 42", "MATH42"⟩

def courseB : Course := ⟨2, "CS 146", "CS146"⟩

/-- A sample fetch oracle: course 1 succeeds with two assignments, everything
else fails. -/
def sampleFetch (c : Course) : Except String (List Assignment) :=
  if c.id == 1 then Except.ok [asgnA, asgnB] else Except.error "Canvas API Error"

/-- The reply the two-tier policy of the webhook handler ends with: the
tagged AI answer when generation and its dispatch both succeed, the fixed
fallback apology otherwise. -/
def expectedReply (fromNumber : String) (gen : Except String String)
    (sendOk : Bool) : String × String :=
  match gen, sendOk with
  | Except.ok answer, true => (fromNumber, studyBuddyTag ++ answer)
  | Except.ok _, false => (fromNumber, fallbackMessage)
  | Except.error _, _ => (fromNumber, fallbackMessage)

/-! ## Supporting lemmas: sorting -/

theorem insertByDue_perm (a : UpcomingAssignment) (l : List UpcomingAssignment) :
    List.Perm (insertByDue a l) (a :: l) := by
  induction l with
  | nil => exact List.Perm.refl _
  | cons b t ih =>
    simp only [insertByDue]
    by_cases h : dueCmp a b ≤ 0
    · rw [if_pos h]
    · rw [if_neg h]
      exact (ih.cons b).trans (List.Perm.swap a b t)

theorem sortByDue_perm (l : List UpcomingAssignment) :
    List.Perm (sortByDue l) l := by
  induction l with
  | nil => exact List.Perm.refl _
  | cons a t ih => exact (insertByDue_perm a (sortByDue t)).trans (ih.cons a)

theorem mem_insertByDue (x a : UpcomingAssignment) (l : List UpcomingAssignment) :
    x ∈ insertByDue a l ↔ x = a ∨ x ∈ l := by
  rw [(insertByDue_perm a l).mem_iff]
  simp

theorem dueCmp_le_iff (a b : UpcomingAssignment) (ha : a.due_at ≠ none)
    (hb : b.due_at ≠ none) : dueCmp a b ≤ 0 ↔ dueOf a ≤ dueOf b := by
  cases ha' : a.due_at with
  | none => exact absurd ha' ha
  | some da =>
    cases hb' : b.due_at with
    | none => exact absurd hb' hb
    | some db => simp only [dueCmp, dueOf, ha', hb']; omega

theorem pairwise_insertByDue (a : UpcomingAssignment) (l : List UpcomingAssignment)
    (ha : a.due_at ≠ none) (hl : ∀ x ∈ l, x.due_at ≠ none)
    (h : l.Pairwise (fun x y => dueOf x ≤ dueOf y)) :
    (insertByDue a l).Pairwise (fun x y => dueOf x ≤ dueOf y) := by
  induction l with
  | nil => simp [insertByDue]
  | cons b t ih =>
    have hb : b.due_at ≠ none := hl b (by simp)
    have ht : ∀ x ∈ t, x.due_at ≠ none := fun x hx => hl x (by simp [hx])
    rcases List.pairwise_cons.mp h with ⟨hbt, hps⟩
    simp only [insertByDue]
    by_cases hcmp : dueCmp a b ≤ 0
    · rw [if_pos hcmp]
      have hab : dueOf a ≤ dueOf b := (dueCmp_le_iff a b ha hb).mp hcmp
      refine List.pairwise_cons.mpr ⟨?_, h⟩
      intro y hy
      rcases List.mem_cons.mp hy with rfl | hyt
      · exact hab
      · exact le_trans hab (hbt y hyt)
    · rw [if_neg hcmp]
      have hba : dueOf b ≤ dueOf a := by
        by_contra hcon
        exact hcmp ((dueCmp_le_iff a b ha hb).mpr (le_of_not_le hcon))
      refine List.pairwise_cons.mpr ⟨?_, ih ht hps⟩
      intro y hy
      rcases (mem_insertByDue y a t).mp hy with rfl | hyt
      · exact hba
      · exact hbt y hyt

theorem pairwise_sortByDue (l : List UpcomingAssignment)
    (hl : ∀ x ∈ l, x.due_at ≠ none) :
    (sortByDue l).Pairwise (fun x y => dueOf x ≤ dueOf y) := by
  induction l with
  | nil => simp [sortByDue]
  | cons a t ih =>
    have ht : ∀ x ∈ t, x.due_at ≠ none := fun x hx => hl x (by simp [hx])
    have hmem : ∀ x ∈ sortByDue t, x.due_at ≠ none :=
      fun x hx => ht x ((sortByDue_perm t).mem_iff.mp hx)
    exact pairwise_insertByDue a (sortByDue t) (hl a (by simp)) hmem (ih ht)

theorem mem_filter_window (a : UpcomingAssignment)
    (l : List UpcomingAssignment) (now daysAhead : Int)
    (ha : a ∈ l.filter (inWindow now daysAhead)) : a.due_at ≠ none := by
  have hw := (List.mem_filter.mp ha).2
  intro hnone
  simp [inWindow, hnone] at hw

/-! ## Claim theorems: aggregation -/

/-- C1: for every merged assignment list (all courses, all fetch outcomes)
and every window, the assignments returned by getUpcomingAssignments are
exactly those of the merged list whose due timestamp lies in
[now, now + daysAhead*24h], with multiplicity preserved; assignments outside
the window or without a due timestamp are dropped.  In particular a merged
assignment occurring once appears in the result exactly once when its due
date is in the window and never otherwise. -/
theorem C1_window_selection (fetch : Course → Except String (List Assignment))
    (courses : List Course) (now daysAhead : Int) (a : UpcomingAssignment) :
    (getUpcomingAssignments fetch courses now daysAhead).1.count a
      = if inWindow now daysAhead a then (allAssignments fetch courses).count a
        else 0 := by
  have hperm := sortByDue_perm ((allAssignments fetch courses).filter (inWindow now daysAhead))
  have hc := hperm.count_eq a
  by_cases h : inWindow now daysAhead a
  · rw [if_pos h]
    exact hc.trans (List.count_filter h)
  · rw [if_neg h]
    have hdef : (getUpcomingAssignments fetch courses now daysAhead).1
        = sortByDue ((allAssignments fetch courses).filter (inWindow now daysAhead)) := rfl
    rw [hdef, hc, List.count_eq_zero]
    intro hmem
    exact h ((List.mem_filter.mp hmem).2)

theorem allAssignments_ok_filter (fetch : Course → Except String (List Assignment))
    (courses : List Course) :
    allAssignments fetch courses
      = allAssignments fetch (courses.filter (fetchOk fetch)) := by
  induction courses with
  | nil => rfl
  | cons c t ih =>
    cases h : fetch c with
    | ok l =>
      have hok : fetchOk fetch c = true := by simp [fetchOk, h]
      have h1 : allAssignments fetch (c :: t)
          = fetchDecorated fetch c ++ allAssignments fetch t := by
        simp [allAssignments]
      rw [h1, List.filter_cons, hok]
      have h2 : allAssignments fetch (c :: t.filter (fetchOk fetch))
          = fetchDecorated fetch c ++ allAssignments fetch (t.filter (fetchOk fetch)) := by
        simp [allAssignments]
      rw [if_pos rfl, h2, ih]
    | error e =>
      have hok : fetchOk fetch c = false := by simp [fetchOk, h]
      have hfd : fetchDecorated fetch c = [] := by simp [fetchDecorated, h]
      have h1 : allAssignments fetch (c :: t)
          = fetchDecorated fetch c ++ allAssignments fetch t := by
        simp [allAssignments]
      rw [h1, hfd, List.nil_append, List.filter_cons, hok]
      simpa using ih

/-- C5: a failing per-course fetch contributes zero assignments: the
aggregation over all courses equals the aggregation over only the courses
whose fetch succeeded, so one failing course never aborts the aggregation. -/
theorem C5_partial_failure (fetch : Course → Except String (List Assignment))
    (courses : List Course) (now daysAhead : Int) :
    (getUpcomingAssignments fetch courses now daysAhead).1
      = (getUpcomingAssignments fetch (courses.filter (fetchOk fetch)) now daysAhead).1 := by
  have h : (getUpcomingAssignments fetch courses now daysAhead).1
      = sortByDue ((allAssignments fetch courses).filter (inWindow now daysAhead)) := rfl
  rw [h, allAssignments_ok_filter]
  rfl

/-- C7: the assignment list returned by getUpcomingAssignments is sorted
non-decreasing by due timestamp (and every returned assignment has a due
timestamp, so the comparator's no-due branch is never exercised). -/
theorem C7_sorted (fetch : Course → Except String (List Assignment))
    (courses : List Course) (now daysAhead : Int) :
    (getUpcomingAssignments fetch courses now daysAhead).1.Pairwise
        (fun x y => dueOf x ≤ dueOf y)
  ∧ (getUpcomingAssignments fetch courses now daysAhead).1.all
        (fun a => a.due_at.isSome) = true := by
  have hfil : ∀ x ∈ (allAssignments fetch courses).filter (inWindow now daysAhead),
      x.due_at ≠ none :=
    fun x hx => mem_filter_window x (allAssignments fetch courses) now daysAhead hx
  constructor
  · exact pairwise_sortByDue _ hfil
  · rw [List.all_eq_true]
    intro a ha
    have := hfil a ((sortByDue_perm _).mem_iff.mp ha)
    simpa [Option.isSome_iff_ne_none] using this

theorem renderLine_zero_points (numStr : Rat → String) (fmtDate : Int → String)
    (a : UpcomingAssignment) :
    renderLine numStr fmtDate (withPoints a (some 0))
      = renderLine numStr fmtDate (withPoints a none) := by
  simp [renderLine, withPoints]

/-- C10: in formatAssignmentsForAI an assignment whose points_possible is
exactly 0 is rendered without the points suffix, indistinguishably from the
same assignment with points_possible absent (JS truthiness: 0 is falsy), in
any surrounding assignment list and for any number/date renderers. -/
theorem C10_zero_points (numStr : Rat → String) (fmtDate : Int → String)
    (l1 l2 : List UpcomingAssignment) (a : UpcomingAssignment) :
    formatAssignmentsForAI numStr fmtDate (l1 ++ withPoints a (some 0) :: l2)
      = formatAssignmentsForAI numStr fmtDate (l1 ++ withPoints a none :: l2) := by
  simp [formatAssignmentsForAI, renderLine_zero_points]

/-! ## Claim theorems: subscription registry -/

/-- C3: creating a subscription for a phone number that already has any
record (matched by exact string equality, regardless of its active flag)
fails with the duplicate error and leaves the store unchanged; creating one
for a fresh number succeeds, stores the record with isActive true, and the
record is retrievable via getSubscription afterwards. -/
theorem C3_create_subscription (store : List Subscription) (p apiKey : String)
    (canvasUrl : Option String) (daysAhead : Option Int) (id createdAt : String) :
    ((∃ s ∈ store, s.phoneNumber = p) →
      createSubscription store p apiKey canvasUrl daysAhead id createdAt
        = (Except.error "Phone number already subscribed", store))
  ∧ ((∀ s ∈ store, s.phoneNumber ≠ p) →
      createSubscription store p apiKey canvasUrl daysAhead id createdAt
        = (Except.ok (newSubscription id p apiKey canvasUrl daysAhead createdAt),
           store ++ [newSubscription id p apiKey canvasUrl daysAhead createdAt])
      ∧ (newSubscription id p apiKey canvasUrl daysAhead createdAt).isActive = true
      ∧ getSubscription (store ++ [newSubscription id p apiKey canvasUrl daysAhead createdAt]) p
          = some (newSubscription id p apiKey canvasUrl daysAhead createdAt)) := by
  constructor
  · rintro ⟨s, hs, hp⟩
    cases hfind : store.find? (fun sub => sub.phoneNumber == p) with
    | none =>
      have := List.find?_eq_none.mp hfind s hs
      simp [hp] at this
    | some s0 =>
      simp [createSubscription, hfind]
  · intro hfresh
    have hfind : store.find? (fun sub => sub.phoneNumber == p) = none :=
      List.find?_eq_none.mpr (fun s hs => by simp [hfresh s hs])
    refine ⟨by simp [createSubscription, hfind], rfl, ?_⟩
    simp [getSubscription, List.find?_append, hfind, newSubscription]

theorem deactivateFirst_eq_none (store : List Subscription) (p : String)
    (h : getSubscription store p = none) : deactivateFirst store p = none := by
  induction store with
  | nil => rfl
  | cons s t ih =>
    by_cases hsp : s.phoneNumber == p
    · simp [getSubscription, List.find?_cons_of_pos, hsp] at h
    · have ht : getSubscription t p = none := by
        simpa [getSubscription, List.find?_cons_of_neg, hsp] using h
      simp [deactivateFirst, hsp, ih ht]

theorem deactivateFirst_eq_some (store : List Subscription) (p : String)
    (sub : Subscription) (h : getSubscription store p = some sub) :
    ∃ l, deactivateFirst store p = some l
      ∧ getSubscription l p = some (deactivated sub) := by
  induction store with
  | nil => simp [getSubscription] at h
  | cons s t ih =>
    by_cases hsp : s.phoneNumber == p
    · have hsub : s = sub := by
        simpa [getSubscription, List.find?_cons_of_pos, hsp] using h
      refine ⟨deactivated s :: t, by simp [deactivateFirst, hsp], ?_⟩
      have hdp : ((deactivated s).phoneNumber == p) = true := hsp
      have hfind : List.find? (fun sub => sub.phoneNumber == p) (deactivated s :: t)
          = some (deactivated s) := List.find?_cons_of_pos t hdp
      rw [getSubscription, hfind, hsub]
    · have ht : getSubscription t p = some sub := by
        simpa [getSubscription, List.find?_cons_of_neg, hsp] using h
      obtain ⟨l, hl, hg⟩ := ih ht
      refine ⟨s :: l, by simp [deactivateFirst, hsp, hl], ?_⟩
      have hfind : List.find? (fun sub => sub.phoneNumber == p) (s :: l)
          = List.find? (fun sub => sub.phoneNumber == p) l :=
        List.find?_cons_of_neg l hsp
      rw [getSubscription, hfind]
      exact hg

/-- C6: unsubscribe on a phone number with no record returns false and leaves
the store unchanged; on a number with a record it returns true, clears that
record's isActive flag, and the record stays retrievable via getSubscription. -/
theorem C6_unsubscribe (store : List Subscription) (p : String) :
    (getSubscription store p = none → unsubscribe store p = (false, store))
  ∧ (∀ sub, getSubscription store p = some sub →
      (unsubscribe store p).1 = true
      ∧ getSubscription (unsubscribe store p).2 p = some (deactivated sub)) := by
  constructor
  · intro h
    simp [unsubscribe, deactivateFirst_eq_none store p h]
  · intro sub h
    obtain ⟨l, hl, hg⟩ := deactivateFirst_eq_some store p sub h
    simp [unsubscribe, hl, hg]

/-! ## Claim theorems: reply router -/

/-- C8: an inbound webhook text that case-insensitively contains "stop" makes
the handler respond success with the "User opted out" message, dispatch no
outbound SMS, and leave the subscription registry untouched. -/
theorem C8_stop_short_circuit (store : List Subscription) (fromNumber text : String)
    (gen : Except String String) (sendOk : Bool) (h : includesStop text = true) :
    handleInbound store fromNumber text gen sendOk
      = (store, [], JsonResponse.mk true "User opted out") := by
  simp [handleInbound, h, optOutResponse]

/-- C4: for an inbound question (text without "stop"), the handler always
dispatches at least one SMS, every dispatch goes to fromNumber, and the final
dispatch is the tagged generated answer when generation and its dispatch both
succeed, and the fixed fallback apology whenever generation or that dispatch
fails — every inbound question gets some reply. -/
theorem C4_reply_fallback (store : List Subscription) (fromNumber text : String)
    (gen : Except String String) (sendOk : Bool) (h : includesStop text = false) :
    (handleInbound store fromNumber text gen sendOk).2.1.getLast?
        = some (expectedReply fromNumber gen sendOk)
  ∧ (handleInbound store fromNumber text gen sendOk).2.1.all
        (fun m => m.1 == fromNumber) = true := by
  cases gen with
  | ok answer => cases sendOk <;> simp [handleInbound, h, expectedReply]
  | error e => simp [handleInbound, h, expectedReply]

/-! ## Claim theorems: webhook verification -/

/-- C2: verifyWebhook returns true exactly when the supplied signature equals
the hex HMAC-SHA256 of timestamp ++ payload under the shared secret; the
webhook route accepts a signed request exactly when the signature is correct
and the timestamp is at most 900 seconds old; in particular a correctly
computed signature validates, and a timestamp older than 900 seconds is
rejected whatever the signature. -/
theorem C2_verify_webhook (apiKey ts payload : List Nat) (sig : String)
    (t : Nat) (now : Int) :
    (verifyWebhook apiKey ts sig payload = true ↔ sig = hmacHex apiKey (ts ++ payload))
  ∧ (webhookGate apiKey (some sig) (some t) payload now = true
      ↔ (sig = hmacHex apiKey (decimalBytes t ++ payload) ∧ now - (t : Int) ≤ 900))
  ∧ verifyWebhook apiKey ts (hmacHex apiKey (ts ++ payload)) payload = true
  ∧ (now - (t : Int) > 900 →
      webhookGate apiKey (some sig) (some t) payload now = false) := by
  refine ⟨by simp [verifyWebhook], by simp [webhookGate, verifyWebhook], by simp [verifyWebhook], ?_⟩
  intro h
  simp only [webhookGate, Bool.and_eq_false_iff, decide_eq_false_iff_not]
  right
  omega

/-- C9: the freshness check is one-sided: with either header absent the whole
verification (signature and freshness) is skipped and the request accepted,
and a correctly signed request whose timestamp lies arbitrarily far in the
future is accepted, since only now - timestamp > 900 rejects. -/
theorem C9_future_and_skip (apiKey payload : List Nat) (sig : String)
    (ts : Nat) (now : Int) :
    webhookGate apiKey none (some ts) payload now = true
  ∧ webhookGate apiKey (some sig) none payload now = true
  ∧ webhookGate apiKey none none payload now = true
  ∧ (now ≤ (ts : Int) →
      webhookGate apiKey (some (hmacHex apiKey (decimalBytes ts ++ payload)))
        (some ts) payload now = true) := by
  refine ⟨rfl, rfl, rfl, ?_⟩
  intro h
  simp only [webhookGate, verifyWebhook, Bool.and_eq_true, beq_iff_eq, decide_eq_true_eq]
  exact ⟨trivial, by omega⟩

set_option maxRecDepth 400000

/-- SHA-256 test vector: the empty message (FIPS 180-4). -/
theorem sha256_test_empty :
    bytesToHex (sha256 []) =
      "e3b0c44298fc1c149afbf4c8996fb92427ae41e4649b934ca495991b7852b855" := by
  decide

/-- SHA-256 test vector: "abc" (FIPS 180-4). -/
theorem sha256_test_abc :
    bytesToHex (sha256 (strBytes "abc")) =
      "ba7816bf8f01cfea414140de5dae2223b00361a396177a9cb410ff61f20015ad" := by
  decide

/-- HMAC-SHA256 test vector: RFC 4231 test case 2. -/
theorem hmac_test_rfc4231 :
    hmacHex (strBytes "Jefe") (strBytes "what do ya want for nothing?") =
      "5bdcc146bf60754e6a042426089575c75a003f089d2739839dec58b964ec3843" := by
  decide

/-- C8 witness: a concrete "STOP" text at a concrete store. -/
theorem C8_stop_witness :
    handleInbound [subA] "+14085551234" "Please STOP sending these"
        (Except.ok "answer") true
      = ([subA], [], JsonResponse.mk true "User opted out") :=
  C8_stop_short_circuit [subA] "+14085551234" "Please STOP sending these"
    (Except.ok "answer") true (by decide)

/-- C4 witness: a concrete question whose generation fails gets the fallback. -/
theorem C4_reply_witness :
    (handleInbound [] "+14085551234" "When is the midterm?"
        (Except.error "rate limited") true).2.1.getLast?
      = some (expectedReply "+14085551234" (Except.error "rate limited") true)
  ∧ (handleInbound [] "+14085551234" "When is the midterm?"
        (Except.error "rate limited") true).2.1.all
      (fun m => m.1 == "+14085551234") = true :=
  C4_reply_fallback [] "+14085551234" "When is the midterm?"
    (Except.error "rate limited") true (by decide)

/-- C3 witness: duplicate creation fails on a concrete store, fresh creation
succeeds and is retrievable. -/
theorem C3_create_witness :
    createSubscription [subA] "+14085551234" "k2" none none "id2" "t2"
      = (Except.error "Phone number already subscribed", [subA])
  ∧ (createSubscription [] "+14085551234" "k2" none none "id2" "t2"
      = (Except.ok (newSubscription "id2" "+14085551234" "k2" none none "t2"),
         [newSubscription "id2" "+14085551234" "k2" none none "t2"])
     ∧ (newSubscription "id2" "+14085551234" "k2" none none "t2").isActive = true
     ∧ getSubscription [newSubscription "id2" "+14085551234" "k2" none none "t2"]
         "+14085551234"
       = some (newSubscription "id2" "+14085551234" "k2" none none "t2")) :=
  ⟨(C3_create_subscription [subA] "+14085551234" "k2" none none "id2" "t2").1
      ⟨subA, by decide, by decide⟩,
   (C3_create_subscription [] "+14085551234" "k2" none none "id2" "t2").2
      (by decide)⟩

/-- C6 witness: unsubscribe on an empty store and on a concrete record. -/
theorem C6_unsubscribe_witness :
    unsubscribe [] "+14085551234" = (false, [])
  ∧ ((unsubscribe [subA] "+14085551234").1 = true
     ∧ getSubscription (unsubscribe [subA] "+14085551234").2 "+14085551234"
         = some (deactivated subA)) :=
  ⟨(C6_unsubscribe [] "+14085551234").1 rfl,
   (C6_unsubscribe [subA] "+14085551234").2 subA (by decide)⟩

/-- C9 witness: skipped verification with missing headers and acceptance of a
far-future correctly signed timestamp. -/
theorem C9_future_witness :
    webhookGate tbKey none (some 1000) samplePayload 5000 = true
  ∧ webhookGate tbKey (some "sig") none samplePayload 5000 = true
  ∧ webhookGate tbKey none none samplePayload 5000 = true
  ∧ webhookGate tbKey
      (some (hmacHex tbKey (decimalBytes 999999999 ++ samplePayload)))
      (some 999999999) samplePayload 0 = true :=
  ⟨(C9_future_and_skip tbKey samplePayload "sig" 1000 5000).1,
   (C9_future_and_skip tbKey samplePayload "sig" 1000 5000).2.1,
   (C9_future_and_skip tbKey samplePayload "sig" 1000 5000).2.2.1,
   (C9_future_and_skip tbKey samplePayload "sig" 999999999 0).2.2.2 (by decide)⟩

/-- C2 witness: at concrete inputs, the correctly computed signature
validates, the same signature with a stale timestamp is rejected by the
gate, and the signature over the original payload fails on a payload with
one byte changed. -/
theorem C2_verify_witness :
    verifyWebhook tbKey (decimalBytes 1000)
        (hmacHex tbKey (decimalBytes 1000 ++ samplePayload)) samplePayload = true
  ∧ webhookGate tbKey
        (some (hmacHex tbKey (decimalBytes 1000 ++ samplePayload))) (some 1000)
        samplePayload 1901 = false
  ∧ verifyWebhook tbKey (decimalBytes 1000)
        (hmacHex tbKey (decimalBytes 1000 ++ samplePayload))
        samplePayloadTampered = false := by
  refine ⟨(C2_verify_webhook tbKey (decimalBytes 1000) samplePayload "" 1000 1901).2.2.1,
    (C2_verify_webhook tbKey (decimalBytes 1000) samplePayload
        (hmacHex tbKey (decimalBytes 1000 ++ samplePayload)) 1000 1901).2.2.2
      (by decide), ?_⟩
  have hiff := (C2_verify_webhook tbKey (decimalBytes 1000) samplePayloadTampered
      (hmacHex tbKey (decimalBytes 1000 ++ samplePayload)) 1000 1901).1
  cases hv : verifyWebhook tbKey (decimalBytes 1000)
      (hmacHex tbKey (decimalBytes 1000 ++ samplePayload)) samplePayloadTampered with
  | false => rfl
  | true => exact absurd (hiff.mp hv) (by decide)
